import Mathlib

/-!
Verification of the ESI streaming execution engine (`esi`, `src/esi/src/lib.rs`).

Shallow embedding of the ESI processor: a recursive, streaming execution
engine that substitutes fetched fragment content for `esi:include`
directives while preserving document order.

Modelling conventions:
* The token stream produced by the (namespace-aware) tag parser is embedded
  as a list of `Event`s followed by an optional terminal parse error
  (`Doc`): the parser hands events to the engine's callback one at a time
  and reports at most one terminal error, after which no further events are
  delivered.
* Machine bytes are `Nat`s; an `Event.xml` carries the bytes that
  `write_event` writes for it.
* The output sink (a streaming body) is a `Sink`: an accumulated buffer
  plus an optional byte capacity. Writing past the capacity fails with an
  I/O error, modelling a downstream write failure (e.g. client disconnect);
  capacity `none` is a sink that never fails.
* The fetch collaborator (`request_handler`) is an explicit function
  `Request → Except ExecutionError Response`; a `Response` body is already
  in parsed form (`Doc`).
* Rust panics (`expect`) are an explicit `Outcome.panicked` /
  `FetchResult.panicked` constructor.
* The recursion into fetched fragments is unbounded in the source; it is
  embedded with an explicit fuel parameter, with a distinct `Outcome.fuelOut`
  result when the fuel is exhausted, so that every theorem about terminating
  behaviour quantifies over (or instantiates) sufficient fuel.
* Executions also record the `trace` of sub-requests handed to the fetch
  collaborator, in order, so that "no fetch was attempted" is statable.
-/

/-- `ExecutionError` from `lib.rs`. Payloads that are formatted strings in
Rust (`quick_xml::Error`, `SendError`) are embedded as plain strings. -/
inductive ExecutionError where
  | XMLError (msg : String)
  | MissingRequiredParameter (tag param : String)
  | UnexpectedClosingTag (name : String)
  | DuplicateTagAttribute (name : String)
  | RequestError (msg : String)
  | UnexpectedStatus (code : Nat)
  | Unknown
  deriving Repr, DecidableEq

/-- A `fastly::Request`: URL, headers, whether it still carries a body, and
the `pass` (cache-bypass) flag. -/
structure Request where
  url : String
  headers : List (String × String)
  hasBody : Bool
  pass : Bool
  deriving Repr, DecidableEq

/-- `Request::clone_without_body`. -/
def Request.clone_without_body (r : Request) : Request :=
  { r with hasBody := false }

/-- `Request::with_url`. -/
def Request.with_url (r : Request) (u : String) : Request :=
  { r with url := u }

/-- `Request::with_pass`. -/
def Request.with_pass (r : Request) (p : Bool) : Request :=
  { r with pass := p }

/-- `Request::set_header`: replaces any existing values for the name. -/
def Request.set_header (r : Request) (name value : String) : Request :=
  { r with headers := r.headers.filter (fun kv => kv.1 != name) ++ [(name, value)] }

/-- First value of a header, if present. -/
def Request.get_header (r : Request) (name : String) : Option String :=
  (r.headers.find? (fun kv => kv.1 == name)).map (fun kv => kv.2)

/-- The `header::HOST` constant. -/
def hostHeader : String := "host"

/-- Characters after the first `"://"` separator, if any. -/
def afterSchemeSep : List Char → Option (List Char)
  | ':' :: '/' :: '/' :: rest => some rest
  | _ :: rest => afterSchemeSep rest
  | [] => none

/-- Host component of a URL string, as computed by the URL library used by
`Request::get_url().host()`: the authority part after `"scheme://"`, up to
the first `/`, `:`, `?` or `#`. A relative reference (no `"://"`) has no
host. -/
def urlHost (url : String) : Option String :=
  match afterSchemeSep url.toList with
  | none => none
  | some rest =>
    match rest.takeWhile (fun c => c != '/' && c != ':' && c != '?' && c != '#') with
    | [] => none
    | h => some (String.mk h)

/-- One event handed by `parse_tags` to the engine's callback: either a raw
XML event (`Event::XML`, carrying the bytes `write_event` emits for it) or a
recognized `esi:include` directive (`Event::ESI(Tag::Include)`). -/
inductive Event where
  | xml (bytes : List Nat)
  | esiInclude (src : String) (alt : Option String) (continue_on_error : Bool)
  deriving Repr, DecidableEq

/-- A parsed token stream: the events delivered in order, then an optional
terminal parse error (the parser reports at most one error and stops). -/
structure Doc where
  events : List Event
  parseError : Option ExecutionError
  deriving Repr, DecidableEq

/-- A `fastly::Response` for a fragment: its status code and its body,
already in parsed-stream form. -/
structure Response where
  status : Nat
  body : Doc
  deriving Repr, DecidableEq

/-- `StatusCode::is_success`: 2xx. -/
def isSuccess (status : Nat) : Bool :=
  200 ≤ status && status < 300

/-- The output sink: accumulated bytes plus an optional capacity after which
writes fail (modelling a failing downstream connection). -/
structure Sink where
  buf : List Nat
  cap : Option Nat
  deriving Repr, DecidableEq

/-- Writing to the sink: appends, or fails with an I/O-backed XML error when
the capacity would be exceeded. -/
def Sink.write (w : Sink) (bytes : List Nat) : Except ExecutionError Sink :=
  match w.cap with
  | none => .ok { w with buf := w.buf ++ bytes }
  | some c =>
    if w.buf.length + bytes.length ≤ c then .ok { w with buf := w.buf ++ bytes }
    else .error (.XMLError "io error: write failed")

/-- Execution state threaded through the engine: the output sink and the
trace of sub-requests handed to the fetch collaborator, in order. -/
structure EState where
  writer : Sink
  trace : List Request
  deriving Repr, DecidableEq

/-- Append issued requests to the trace. -/
def EState.addTrace (st : EState) (reqs : List Request) : EState :=
  { st with trace := st.trace ++ reqs }

/-- Result of `send_esi_fragment_request`. -/
inductive FetchResult where
  | panicked (msg : String)
  | fail (e : ExecutionError)
  | success (resp : Response)
  deriving Repr, DecidableEq

/-- The sub-request built inside `send_esi_fragment_request`:
`original_request.clone_without_body().with_url(url).with_pass(true)` with
the `Host` header set to the URL's host. -/
def build_fragment_request (orig : Request) (url : String) (host : String) : Request :=
  (((orig.clone_without_body).with_url url).with_pass true).set_header hostHeader host

/-- `Processor::send_esi_fragment_request`: builds the sub-request, panics
(`expect("no host")`) when the URL has no host, calls the handler, and turns
a non-2xx response into `UnexpectedStatus`. Also returns the request that
was handed to the handler, if any. -/
def send_esi_fragment_request (orig : Request) (url : String)
    (handler : Request → Except ExecutionError Response) :
    Option Request × FetchResult :=
  match urlHost url with
  | none => (none, .panicked "no host")
  | some h =>
    let req := build_fragment_request orig url h
    match handler req with
    | .error e => (some req, .fail e)
    | .ok resp =>
      if isSuccess resp.status then (some req, .success resp)
      else (some req, .fail (.UnexpectedStatus resp.status))

/-- Outcome of one directive's fetch policy (`lib.rs` lines 102–136):
either a panic, an aborting error (`continue_on_error = false`), a silent
skip (`continue_on_error = true`), or fragment content to render. -/
inductive IncludeFetch where
  | panicked (msg : String)
  | abort (e : ExecutionError)
  | skip
  | content (resp : Response)
  deriving Repr, DecidableEq

/-- The `src`-then-`alt` fetch policy for one `Include` directive, together
with the requests issued (in order). On `src` failure with `alt` present the
`alt` is tried; if that also fails the *alt* error is the aborting one. -/
def fetch_include (orig : Request) (src : String) (alt : Option String)
    (coe : Bool) (handler : Request → Except ExecutionError Response) :
    List Request × IncludeFetch :=
  match send_esi_fragment_request orig src handler with
  | (r₁, .panicked m) => (r₁.toList, .panicked m)
  | (r₁, .success resp) => (r₁.toList, .content resp)
  | (r₁, .fail e₁) =>
    match alt with
    | some a =>
      match send_esi_fragment_request orig a handler with
      | (r₂, .panicked m) => (r₁.toList ++ r₂.toList, .panicked m)
      | (r₂, .success resp) => (r₁.toList ++ r₂.toList, .content resp)
      | (r₂, .fail e₂) =>
        (r₁.toList ++ r₂.toList, if coe then .skip else .abort e₂)
    | none => (r₁.toList, if coe then .skip else .abort e₁)

/-- Terminal outcome of an engine run. -/
inductive Outcome where
  | ok
  | err (e : ExecutionError)
  | panicked (msg : String)
  | fuelOut
  deriving Repr, DecidableEq

/-- The body of `execute_esi_fragment`'s event callback, looped over the
event stream by `parse_tags`: XML events are written (and flushed) to the
sink; `Include` directives run the fetch policy and, on content, recursively
execute the fragment's parsed body into the same sink (with
`original_request.clone_without_body()` as the new original request) before
the next sibling event — the recursive step is the `execFrag` parameter
(`none` meaning the fuel is exhausted). After all events, a terminal parse
error, if any, is returned. -/
def execList (handler : Request → Except ExecutionError Response)
    (execFrag : Request → Doc → EState → Option (EState × Outcome)) :
    Request → List Event → Option ExecutionError → EState → EState × Outcome
  | _, [], none, st => (st, .ok)
  | _, [], some e, st => (st, .err e)
  | orig, .xml bytes :: rest, perr, st =>
    match st.writer.write bytes with
    | .error e => (st, .err e)
    | .ok w => execList handler execFrag orig rest perr { st with writer := w }
  | orig, .esiInclude src alt coe :: rest, perr, st =>
    match fetch_include orig src alt coe handler with
    | (reqs, .panicked m) => (st.addTrace reqs, .panicked m)
    | (reqs, .abort e) => (st.addTrace reqs, .err e)
    | (reqs, .skip) => execList handler execFrag orig rest perr (st.addTrace reqs)
    | (reqs, .content resp) =>
      match execFrag orig.clone_without_body resp.body (st.addTrace reqs) with
      | none => (st.addTrace reqs, .fuelOut)
      | some (st', .ok) => execList handler execFrag orig rest perr st'
      | some r => r

/-- The recursive engine over a parsed event stream. The fuel bounds the
fragment-recursion depth (the source recursion is unbounded); a fragment
encountered with no fuel left yields `Outcome.fuelOut`. -/
def execEvents (handler : Request → Except ExecutionError Response) :
    Nat → Request → List Event → Option ExecutionError → EState → EState × Outcome
  | 0 => execList handler (fun _ _ _ => none)
  | fuel + 1 =>
    execList handler
      (fun orig doc st => some (execEvents handler fuel orig doc.events doc.parseError st))

/-- `Processor::execute_esi_fragment` over a parsed stream. -/
def execute_esi_fragment (orig : Request)
    (handler : Request → Except ExecutionError Response)
    (fuel : Nat) (doc : Doc) (st : EState) : EState × Outcome :=
  execEvents handler fuel orig doc.events doc.parseError st

/-- The fixed fallback notice appended on an unrecovered error
(`b"\nAn error occurred while constructing this document.\n"`). -/
def errorNotice : List Nat :=
  "\nAn error occurred while constructing this document.\n".toList.map Char.toNat

/-- `Processor::execute_esi`: runs the fragment executor over the document
body from an empty sink (with the given capacity); on an inner error it
attempts to write the fallback notice — note that a *failure* of that write
is propagated by `?`, replacing the original error — and otherwise returns
the original error. Panics and fuel exhaustion propagate unchanged. -/
def execute_esi (orig : Request)
    (handler : Request → Except ExecutionError Response)
    (fuel : Nat) (doc : Doc) (cap : Option Nat) : EState × Outcome :=
  let st₀ : EState := ⟨⟨[], cap⟩, []⟩
  match execute_esi_fragment orig handler fuel doc st₀ with
  | (st, .ok) => (st, .ok)
  | (st, .err e) =>
    match st.writer.write errorNotice with
    | .ok w => ({ st with writer := w }, .err e)
    | .error we => (st, .err we)
  | r => r

/-- A raw lexical item as seen by the tag parser before validation: a
non-directive XML token (passed through), or an occurrence of a recognized
namespaced `include` tag with its attribute name/value pairs in source
order. -/
inductive RawEvent where
  | xml (bytes : List Nat)
  | esiIncludeTag (attrs : List (String × String))
  deriving Repr, DecidableEq

/-- First value for an attribute name. -/
def lookupAttr (attrs : List (String × String)) (name : String) : Option String :=
  (attrs.find? (fun kv => kv.1 == name)).map (fun kv => kv.2)

/-- First attribute name repeating an earlier one, scanning left to right. -/
def firstDupAttr : List (String × String) → List String → Option String
  | [], _ => none
  | (n, _) :: rest, seen =>
    if seen.contains n then some n else firstDupAttr rest (n :: seen)

/-- Modelled from the spec: the directive-completion step of the missing
`parse.rs` Tag Parser (§4.1, §3). Attribute duplicates are rejected
immediately while collecting; at completion `src` must be present and
non-empty (else `MissingRequiredParameter`), `alt` is optional, and
`continue_on_error` is true exactly for `onerror="continue"` (default
false). -/
def makeInclude (attrs : List (String × String)) : Except ExecutionError Event :=
  match firstDupAttr attrs [] with
  | some n => .error (.DuplicateTagAttribute n)
  | none =>
    match lookupAttr attrs "src" with
    | none => .error (.MissingRequiredParameter "include" "src")
    | some s =>
      if s = "" then .error (.MissingRequiredParameter "include" "src")
      else
        .ok (.esiInclude s (lookupAttr attrs "alt")
          (lookupAttr attrs "onerror" == some "continue"))

/-- Modelled from the spec: `parse_tags` of the missing `parse.rs` as a
whole-stream function (§4.1) — events are emitted in input order up to the
first parse error, which becomes the stream's single terminal error. -/
def parse_tags : List RawEvent → Doc
  | [] => ⟨[], none⟩
  | .xml bytes :: rest =>
    let d := parse_tags rest
    ⟨.xml bytes :: d.events, d.parseError⟩
  | .esiIncludeTag attrs :: rest =>
    match makeInclude attrs with
    | .error e => ⟨[], some e⟩
    | .ok ev =>
      let d := parse_tags rest
      ⟨ev :: d.events, d.parseError⟩

/-- The literal bytes of a directive-free stream. -/
def streamBytes : List Event → List Nat
  | [] => []
  | .xml bytes :: rest => bytes ++ streamBytes rest
  | .esiInclude _ _ _ :: rest => streamBytes rest

/-- A stream with no directive markup. -/
def noDirectives (evs : List Event) : Bool :=
  evs.all fun e =>
    match e with
    | .xml _ => true
    | .esiInclude _ _ _ => false

/-- Specification-level expected output (spec §4.2 step 3, §8): the bytes of
a stream in document order with every `Include` directive replaced by the
recursively rendered body of its successfully fetched `src` fragment,
spliced exactly at the directive's position. `none` when some `src` fetch
along the way does not yield 2xx content, some fragment has a parse error,
or the fuel does not cover the nesting depth. -/
def flattenList (handler : Request → Except ExecutionError Response)
    (flattenFrag : Request → List Event → Option (List Nat)) :
    Request → List Event → Option (List Nat)
  | _, [] => some []
  | orig, .xml bytes :: rest =>
    (flattenList handler flattenFrag orig rest).map (fun out => bytes ++ out)
  | orig, .esiInclude src _ _ :: rest =>
    match (send_esi_fragment_request orig src handler).2 with
    | .success resp =>
      match resp.body.parseError with
      | some _ => none
      | none =>
        match flattenFrag orig.clone_without_body resp.body.events with
        | none => none
        | some fragOut =>
          (flattenList handler flattenFrag orig rest).map (fun out => fragOut ++ out)
    | _ => none

/-- Specification-level expected output, the fuelled recursion: a fragment
met with no fuel left (or any failing step) yields `none`. -/
def flattenEvents (handler : Request → Except ExecutionError Response) :
    Nat → Request → List Event → Option (List Nat)
  | 0 => flattenList handler (fun _ _ => none)
  | fuel + 1 =>
    flattenList handler (fun orig evs => flattenEvents handler fuel orig evs)

/-- `FetchResult.fail`, as a Boolean test. -/
def isFail : FetchResult → Bool
  | .fail _ => true
  | _ => false

/-- Both fetches for one directive fail: with no `alt`, the `src` fetch
fails with `e`; with an `alt`, the `src` fetch fails (with some error) and
the `alt` fetch fails with `e` — `e` is the error the source code keeps. -/
def bothFetchesFail (orig : Request)
    (handler : Request → Except ExecutionError Response)
    (src : String) (alt : Option String) (e : ExecutionError) : Prop :=
  match alt with
  | none => (send_esi_fragment_request orig src handler).2 = .fail e
  | some a =>
    isFail (send_esi_fragment_request orig src handler).2 = true ∧
      (send_esi_fragment_request orig a handler).2 = .fail e

/-- A raw token that is not a directive occurrence. -/
def isRawXml : RawEvent → Bool
  | .xml _ => true
  | .esiIncludeTag _ => false

/-- The events a directive-free raw stream parses to. -/
def toXmlEvents : List RawEvent → List Event
  | [] => []
  | .xml bytes :: rest => .xml bytes :: toXmlEvents rest
  | .esiIncludeTag _ :: rest => toXmlEvents rest

/-! ### Concrete fixtures used in closed-instance checks -/

/-- A concrete original client request. -/
def clientReq : Request := ⟨"s://c/page", [("accept", "text/html")], true, false⟩

/-- A fetch collaborator whose every request fails at transport level. -/
def downHandler : Request → Except ExecutionError Response :=
  fun _ => .error (.RequestError "connection refused")

/-- A fetch collaborator: `s://h/f` answers 500, `s://h/g` answers 200 with
a one-byte body, anything else fails at transport level. -/
def fallbackHandler : Request → Except ExecutionError Response := fun r =>
  if r.url = "s://h/f" then .ok ⟨500, ⟨[], none⟩⟩
  else if r.url = "s://h/g" then .ok ⟨200, ⟨[.xml [88]], none⟩⟩
  else .error (.RequestError "connection refused")

/-- A fetch collaborator serving a nested include chain: `s://h/a` is 200
with a byte followed by an include of `s://h/b`, and `s://h/b` is 200 with
one byte. -/
def nestedHandler : Request → Except ExecutionError Response := fun r =>
  if r.url = "s://h/a" then .ok ⟨200, ⟨[.xml [10], .esiInclude "s://h/b" none false], none⟩⟩
  else if r.url = "s://h/b" then .ok ⟨200, ⟨[.xml [11]], none⟩⟩
  else .error (.RequestError "connection refused")

/-- A fetch collaborator whose fragment `s://h/bad` is served with status
200 but whose body fails to parse after one event. -/
def badFragmentHandler : Request → Except ExecutionError Response := fun r =>
  if r.url = "s://h/bad" then .ok ⟨200, ⟨[.xml [7]], some (.XMLError "malformed fragment")⟩⟩
  else .error (.RequestError "connection refused")

/-! ## General lemmas about the embedding -/

theorem addTrace_writer (st : EState) (reqs : List Request) :
    (st.addTrace reqs).writer = st.writer := rfl

theorem Sink.write_cap_none (w : Sink) (bytes : List Nat) (hcap : w.cap = none) :
    w.write bytes = .ok ⟨w.buf ++ bytes, none⟩ := by
  cases w
  simp_all [Sink.write]

theorem send_fragment_fst (orig : Request) (url host : String)
    (handler : Request → Except ExecutionError Response)
    (hh : urlHost url = some host) :
    (send_esi_fragment_request orig url handler).1 =
      some (build_fragment_request orig url host) := by
  cases hr : handler (build_fragment_request orig url host) with
  | error e => simp [send_esi_fragment_request, hh, hr]
  | ok resp =>
    simp only [send_esi_fragment_request, hh, hr]
    split <;> rfl

theorem fetch_include_of_success (orig : Request) (src : String) (alt : Option String)
    (coe : Bool) (handler : Request → Except ExecutionError Response)
    (req : Request) (resp : Response)
    (h : send_esi_fragment_request orig src handler = (some req, .success resp)) :
    fetch_include orig src alt coe handler = ([req], .content resp) := by
  unfold fetch_include
  rw [h]
  rfl

/-- A run over a directive-free stream appends exactly the stream's literal
bytes to a never-failing sink, issues no request, and ends with the stream's
terminal parse error if there is one. -/
theorem execList_noDirectives (handler : Request → Except ExecutionError Response)
    (execFrag : Request → Doc → EState → Option (EState × Outcome))
    (orig : Request) (evs : List Event) (perr : Option ExecutionError) (st : EState)
    (hnd : noDirectives evs = true) (hcap : st.writer.cap = none) :
    execList handler execFrag orig evs perr st =
      (⟨⟨st.writer.buf ++ streamBytes evs, none⟩, st.trace⟩,
        match perr with | none => Outcome.ok | some e => Outcome.err e) := by
  induction evs generalizing st with
  | nil =>
    obtain ⟨⟨buf, cap⟩, tr⟩ := st
    subst hcap
    cases perr <;> simp [execList, streamBytes]
  | cons e rest ih =>
    cases e with
    | xml bytes =>
      rw [streamBytes]
      have hw := Sink.write_cap_none st.writer bytes hcap
      simp only [execList, hw]
      rw [ih { st with writer := ⟨st.writer.buf ++ bytes, none⟩ } (by simp_all [noDirectives]) rfl]
      simp [List.append_assoc]
    | esiInclude src alt coe =>
      simp [noDirectives] at hnd

theorem execEvents_noDirectives (handler : Request → Except ExecutionError Response)
    (fuel : Nat) (orig : Request) (evs : List Event) (perr : Option ExecutionError)
    (st : EState) (hnd : noDirectives evs = true) (hcap : st.writer.cap = none) :
    execEvents handler fuel orig evs perr st =
      (⟨⟨st.writer.buf ++ streamBytes evs, none⟩, st.trace⟩,
        match perr with | none => Outcome.ok | some e => Outcome.err e) := by
  cases fuel <;> exact execList_noDirectives _ _ _ _ _ _ hnd hcap

/-! ## Claims -/

/-- C9: for every sub-request URL whose parsed form has no host component
(for example a relative path such as `"/f"`), `send_esi_fragment_request`
panics (`expect("no host")`) instead of returning an error result — no
request is issued and the outcome is a panic, not `FetchResult.fail`. -/
theorem C9_no_host_panics (orig : Request) (url : String)
    (handler : Request → Except ExecutionError Response)
    (h : urlHost url = none) :
    send_esi_fragment_request orig url handler = (none, .panicked "no host") := by
  unfold send_esi_fragment_request
  rw [h]

theorem C9_no_host_panics_witness :
    urlHost "/f" = none ∧
      send_esi_fragment_request clientReq "/f" downHandler = (none, .panicked "no host") :=
  ⟨by decide, C9_no_host_panics clientReq "/f" downHandler (by decide)⟩

/-- C6: a fragment fetch fails exactly when the request handler returns a
transport error (propagated as-is) or the response status is not 2xx (then
the error is `UnexpectedStatus` carrying that status code); a 2xx response
is returned as success. -/
theorem C6_fetch_failure_criterion (orig : Request) (url host : String)
    (handler : Request → Except ExecutionError Response)
    (hh : urlHost url = some host) :
    (send_esi_fragment_request orig url handler).2 =
      match handler (build_fragment_request orig url host) with
      | .error e => .fail e
      | .ok resp =>
        if isSuccess resp.status then .success resp
        else .fail (.UnexpectedStatus resp.status) := by
  cases hr : handler (build_fragment_request orig url host) with
  | error e => simp [send_esi_fragment_request, hh, hr]
  | ok resp =>
    simp only [send_esi_fragment_request, hh, hr]
    split <;> rfl

theorem C6_fetch_failure_criterion_witness :
    urlHost "s://h/f" = some "h" ∧
      (send_esi_fragment_request clientReq "s://h/f" fallbackHandler).2 =
        (match fallbackHandler (build_fragment_request clientReq "s://h/f" "h") with
          | .error e => .fail e
          | .ok resp =>
            if isSuccess resp.status then .success resp
            else .fail (.UnexpectedStatus resp.status)) :=
  ⟨by decide, C6_fetch_failure_criterion clientReq "s://h/f" "h" fallbackHandler (by decide)⟩

theorem find?_filter_ne (l : List (String × String)) (hn name : String)
    (h : name ≠ hn) :
    (l.filter (fun kv => kv.1 != hn)).find? (fun kv => kv.1 == name) =
      l.find? (fun kv => kv.1 == name) := by
  induction l with
  | nil => rfl
  | cons kv l ih =>
    by_cases h1 : kv.1 = hn
    · have : (kv.1 != hn) = false := by simp [h1]
      rw [List.filter_cons, this]
      simp only [Bool.false_eq_true, if_false]
      rw [ih, List.find?_cons]
      have : (kv.1 == name) = false := by simp [h1]; exact fun hc => absurd hc.symm h
      simp [this]
    · have : (kv.1 != hn) = true := by simp [h1]
      rw [List.filter_cons, this]
      simp only [if_true]
      rw [List.find?_cons, List.find?_cons]
      cases hkv : (kv.1 == name) <;> simp [ih]

theorem get_header_set_same (r : Request) (n v : String) :
    (r.set_header n v).get_header n = some v := by
  unfold Request.set_header Request.get_header
  simp only [List.find?_append]
  have : (r.headers.filter (fun kv => kv.1 != n)).find? (fun kv => kv.1 == n) = none := by
    apply List.find?_eq_none.mpr
    intro kv hkv
    have := List.of_mem_filter hkv
    simp_all
  rw [this]
  simp [List.find?]

theorem get_header_set_other (r : Request) (n v name : String) (h : name ≠ n) :
    (r.set_header n v).get_header name = r.get_header name := by
  unfold Request.set_header Request.get_header
  simp only [List.find?_append]
  rw [find?_filter_ne _ _ _ h]
  cases hf : r.headers.find? (fun kv => kv.1 == name) with
  | some kv => simp
  | none =>
    have : (n == name) = false := by
      simp only [beq_eq_false_iff_ne, ne_eq]
      exact fun hc => absurd hc.symm h
    simp [List.find?, this]

/-- C5: the sub-request handed to the fetch collaborator for a directive URL
is the original client request with its body removed, pass-through forced
(bypassing the response cache), its URL set to the directive's `src` (or
`alt` on the retry — the same constructor serves both calls), and its
`Host` header set to the host of that URL; all other headers are taken
unchanged from the original request. -/
theorem C5_subrequest_construction (orig : Request) (url host : String)
    (handler : Request → Except ExecutionError Response)
    (hh : urlHost url = some host) :
    ∃ req, (send_esi_fragment_request orig url handler).1 = some req ∧
      req.hasBody = false ∧ req.pass = true ∧ req.url = url ∧
      req.get_header hostHeader = some host ∧
      ∀ name, name ≠ hostHeader → req.get_header name = orig.get_header name := by
  refine ⟨build_fragment_request orig url host,
    send_fragment_fst orig url host handler hh, rfl, rfl, rfl, ?_, ?_⟩
  · exact get_header_set_same _ _ _
  · intro name hn
    exact get_header_set_other _ _ _ _ hn

theorem C5_subrequest_construction_witness :
    urlHost "s://h/f" = some "h" ∧
      (∃ req, (send_esi_fragment_request clientReq "s://h/f" fallbackHandler).1 = some req ∧
        req.hasBody = false ∧ req.pass = true ∧ req.url = "s://h/f" ∧
        req.get_header hostHeader = some "h" ∧
        ∀ name, name ≠ hostHeader → req.get_header name = clientReq.get_header name) :=
  ⟨by decide, C5_subrequest_construction clientReq "s://h/f" "h" fallbackHandler (by decide)⟩

/-- C7: for every document whose event stream contains no directive markup
(and parses cleanly), executing it succeeds and the bytes written to the
output sink are exactly the document's own bytes, with no fragment request
issued. -/
theorem C7_identity (orig : Request) (handler : Request → Except ExecutionError Response)
    (fuel : Nat) (evs : List Event) (hnd : noDirectives evs = true) :
    execute_esi orig handler fuel ⟨evs, none⟩ none =
      (⟨⟨streamBytes evs, none⟩, []⟩, .ok) := by
  have h := execEvents_noDirectives handler fuel orig evs none ⟨⟨[], none⟩, []⟩ hnd rfl
  simp only [execute_esi, execute_esi_fragment] at h ⊢
  rw [h]
  simp

theorem C7_identity_witness :
    noDirectives [Event.xml [1, 2], Event.xml [3]] = true ∧
      execute_esi clientReq downHandler 1 ⟨[Event.xml [1, 2], Event.xml [3]], none⟩ none =
        (⟨⟨[1, 2, 3], none⟩, []⟩, .ok) :=
  ⟨by decide,
    (C7_identity clientReq downHandler 1 [Event.xml [1, 2], Event.xml [3]] (by decide)).trans
      (by decide)⟩

/-- C3: for an `Include` whose `src` fetch fails (transport error or
non-2xx) and whose `alt` fetch succeeds, the engine retries against `alt`
and renders `alt`'s fragment content at the directive's position: executing
the directive and its siblings equals executing the siblings from a state
whose sink has the `alt` fragment's bytes appended exactly there (shown for
an `alt` body that is directive-free and well parsed, on a never-failing
sink). -/
theorem C3_alt_fallback (orig : Request) (handler : Request → Except ExecutionError Response)
    (src a : String) (coe : Bool) (rest : List Event) (perr : Option ExecutionError)
    (st : EState) (fuel : Nat) (e₁ : ExecutionError) (req : Request) (resp : Response)
    (h1 : (send_esi_fragment_request orig src handler).2 = .fail e₁)
    (h2 : send_esi_fragment_request orig a handler = (some req, .success resp))
    (hnd : noDirectives resp.body.events = true)
    (hpe : resp.body.parseError = none)
    (hcap : st.writer.cap = none) :
    ∃ reqs,
      execEvents handler (fuel + 1) orig (.esiInclude src (some a) coe :: rest) perr st =
        execEvents handler (fuel + 1) orig rest perr
          ⟨⟨st.writer.buf ++ streamBytes resp.body.events, none⟩, st.trace ++ reqs⟩ := by
  rcases hps : send_esi_fragment_request orig src handler with ⟨r₁, f₁⟩
  rw [hps] at h1
  simp only at h1
  subst h1
  refine ⟨r₁.toList ++ [req], ?_⟩
  have hfetch : fetch_include orig src (some a) coe handler
      = (r₁.toList ++ [req], .content resp) := by
    simp only [fetch_include, hps, h2]
    rfl
  have hfrag : execEvents handler fuel orig.clone_without_body resp.body.events
      resp.body.parseError (st.addTrace (r₁.toList ++ [req])) =
      (⟨⟨st.writer.buf ++ streamBytes resp.body.events, none⟩,
        st.trace ++ (r₁.toList ++ [req])⟩, .ok) := by
    rw [hpe, execEvents_noDirectives handler fuel orig.clone_without_body resp.body.events
      none (st.addTrace (r₁.toList ++ [req])) hnd hcap]
    rfl
  simp only [execEvents, execList, hfetch, hfrag]

theorem C3_alt_fallback_witness :
    ((send_esi_fragment_request clientReq "s://h/f" fallbackHandler).2
        = .fail (.UnexpectedStatus 500) ∧
      send_esi_fragment_request clientReq "s://h/g" fallbackHandler
        = (some ⟨"s://h/g", [("accept", "text/html"), ("host", "h")], false, true⟩,
            .success ⟨200, ⟨[.xml [88]], none⟩⟩)) ∧
    ∃ reqs,
      execEvents fallbackHandler 1 clientReq
          (.esiInclude "s://h/f" (some "s://h/g") false :: [.xml [3]]) none
          ⟨⟨[1], none⟩, []⟩ =
        execEvents fallbackHandler 1 clientReq [.xml [3]] none
          ⟨⟨[1, 88], none⟩, reqs⟩ :=
  ⟨⟨by decide, by decide⟩,
    C3_alt_fallback clientReq fallbackHandler "s://h/f" "s://h/g" false [.xml [3]] none
      ⟨⟨[1], none⟩, []⟩ 0 (.UnexpectedStatus 500)
      ⟨"s://h/g", [("accept", "text/html"), ("host", "h")], false, true⟩
      ⟨200, ⟨[.xml [88]], none⟩⟩
      (by decide) (by decide) (by decide) (by decide) rfl⟩

/-- C2: for an `Include` whose `src` fetch fails and whose `alt` fetch also
fails (or whose `src` fetch fails with no `alt`): when `continue_on_error`
is true the directive contributes zero bytes to the output (the sink is
untouched) and execution continues with the next sibling event; when false
the engine returns the terminating error — the `alt` error when an `alt`
was tried, else the `src` error — which the recursive structure of the
engine unwinds through every enclosing call. -/
theorem C2_both_fail_policy (orig : Request)
    (handler : Request → Except ExecutionError Response)
    (src : String) (alt : Option String) (e : ExecutionError)
    (h : bothFetchesFail orig handler src alt e) :
    ∃ reqs,
      (∀ fuel rest perr st,
        execEvents handler fuel orig (.esiInclude src alt true :: rest) perr st =
          execEvents handler fuel orig rest perr (st.addTrace reqs) ∧
        (st.addTrace reqs).writer = st.writer) ∧
      (∀ fuel rest perr st,
        execEvents handler fuel orig (.esiInclude src alt false :: rest) perr st =
          (st.addTrace reqs, .err e)) := by
  cases alt with
  | none =>
    rcases hps : send_esi_fragment_request orig src handler with ⟨r₁, f₁⟩
    unfold bothFetchesFail at h
    rw [hps] at h
    simp only at h
    subst h
    have hft : fetch_include orig src none true handler = (r₁.toList, .skip) := by
      simp only [fetch_include, hps]
      rfl
    have hff : fetch_include orig src none false handler = (r₁.toList, .abort e) := by
      simp only [fetch_include, hps]
      rfl
    exact ⟨r₁.toList,
      fun fuel rest perr st => ⟨by cases fuel <;> simp only [execEvents, execList, hft], rfl⟩,
      fun fuel rest perr st => by cases fuel <;> simp only [execEvents, execList, hff]⟩
  | some a =>
    unfold bothFetchesFail at h
    obtain ⟨hf, ha⟩ := h
    rcases hps : send_esi_fragment_request orig src handler with ⟨r₁, f₁⟩
    rcases hpa : send_esi_fragment_request orig a handler with ⟨r₂, f₂⟩
    rw [hps] at hf
    rw [hpa] at ha
    simp only at hf ha
    subst ha
    rcases f₁ with m | e₁ | resp <;> simp [isFail] at hf
    have hft : fetch_include orig src (some a) true handler
        = (r₁.toList ++ r₂.toList, .skip) := by
      simp only [fetch_include, hps, hpa]
      rfl
    have hff : fetch_include orig src (some a) false handler
        = (r₁.toList ++ r₂.toList, .abort e) := by
      simp only [fetch_include, hps, hpa]
      rfl
    exact ⟨r₁.toList ++ r₂.toList,
      fun fuel rest perr st => ⟨by cases fuel <;> simp only [execEvents, execList, hft], rfl⟩,
      fun fuel rest perr st => by cases fuel <;> simp only [execEvents, execList, hff]⟩

theorem C2_both_fail_policy_witness :
    bothFetchesFail clientReq downHandler "s://h/f" (some "s://h/g")
        (.RequestError "connection refused") ∧
      ∃ reqs,
        (∀ fuel rest perr st,
          execEvents downHandler fuel clientReq
              (.esiInclude "s://h/f" (some "s://h/g") true :: rest) perr st =
            execEvents downHandler fuel clientReq rest perr (st.addTrace reqs) ∧
          (st.addTrace reqs).writer = st.writer) ∧
        (∀ fuel rest perr st,
          execEvents downHandler fuel clientReq
              (.esiInclude "s://h/f" (some "s://h/g") false :: rest) perr st =
            (st.addTrace reqs, .err (.RequestError "connection refused"))) :=
  ⟨by constructor <;> decide,
    C2_both_fail_policy clientReq downHandler "s://h/f" (some "s://h/g")
      (.RequestError "connection refused") (by constructor <;> decide)⟩

/-- C10: the `continue_on_error` policy applies only to fetch failures —
for an `Include` with `continue_on_error = true` whose fetch succeeds
(2xx), an error produced while recursively rendering the fetched fragment's
body (a parse error of the fragment, or an unrecovered nested directive
failure) propagates out of the directive and aborts the stream, despite the
enclosing directive's `continue_on_error` setting. -/
theorem C10_fragment_error_propagates (orig : Request)
    (handler : Request → Except ExecutionError Response)
    (src : String) (alt : Option String) (rest : List Event)
    (perr : Option ExecutionError) (st st' : EState) (fuel : Nat)
    (req : Request) (resp : Response) (e : ExecutionError)
    (h1 : send_esi_fragment_request orig src handler = (some req, .success resp))
    (h2 : execute_esi_fragment orig.clone_without_body handler fuel resp.body
        (st.addTrace [req]) = (st', .err e)) :
    execEvents handler (fuel + 1) orig (.esiInclude src alt true :: rest) perr st =
      (st', .err e) := by
  have hfetch := fetch_include_of_success orig src alt true handler req resp h1
  simp only [execute_esi_fragment] at h2
  simp only [execEvents, execList, hfetch, h2]

theorem C10_fragment_error_propagates_witness :
    (send_esi_fragment_request clientReq "s://h/bad" badFragmentHandler
        = (some ⟨"s://h/bad", [("accept", "text/html"), ("host", "h")], false, true⟩,
            .success ⟨200, ⟨[.xml [7]], some (.XMLError "malformed fragment")⟩⟩) ∧
      execute_esi_fragment clientReq.clone_without_body badFragmentHandler 0
          ⟨[.xml [7]], some (.XMLError "malformed fragment")⟩
          (EState.addTrace ⟨⟨[1], none⟩, []⟩
            [⟨"s://h/bad", [("accept", "text/html"), ("host", "h")], false, true⟩]) =
        (⟨⟨[1, 7], none⟩,
            [⟨"s://h/bad", [("accept", "text/html"), ("host", "h")], false, true⟩]⟩,
          .err (.XMLError "malformed fragment"))) ∧
    execEvents badFragmentHandler 1 clientReq
        (.esiInclude "s://h/bad" none true :: [.xml [3]]) none ⟨⟨[1], none⟩, []⟩ =
      (⟨⟨[1, 7], none⟩,
          [⟨"s://h/bad", [("accept", "text/html"), ("host", "h")], false, true⟩]⟩,
        .err (.XMLError "malformed fragment")) :=
  ⟨⟨by decide, by decide⟩,
    C10_fragment_error_propagates clientReq badFragmentHandler "s://h/bad" none [.xml [3]]
      none ⟨⟨[1], none⟩, []⟩ _ 0
      ⟨"s://h/bad", [("accept", "text/html"), ("host", "h")], false, true⟩
      ⟨200, ⟨[.xml [7]], some (.XMLError "malformed fragment")⟩⟩
      (.XMLError "malformed fragment") (by decide) (by decide)⟩

/-- C4, counterexample: the claim says a failure of the notice-writing
attempt is ignored and does not change the reported error. On a sink that
cannot take the notice (capacity 0), an execution whose inner error is
`RequestError "connection refused"` makes `execute_esi` report the notice
write's own `XMLError` instead of the original error — the write failure is
propagated by `?` in `lib.rs` line 74, replacing the original error. -/
theorem C4_notice_counterexample :
    (execute_esi_fragment clientReq downHandler 1
        ⟨[.esiInclude "s://h/f" none false], none⟩ ⟨⟨[], some 0⟩, []⟩).2
      = .err (.RequestError "connection refused") ∧
    (execute_esi clientReq downHandler 1
        ⟨[.esiInclude "s://h/f" none false], none⟩ (some 0)).2
      = .err (.XMLError "io error: write failed") := by
  constructor <;> decide

/-- C4, amended: when the inner execution returns an error, `execute_esi`
makes one attempt to append the fixed plain-text fallback notice to the
output sink; if that append succeeds the original execution error is
reported, but if the append itself fails, the append's own error is
reported to the caller in place of the original error (and the notice
bytes are not added). -/
theorem C4_notice_on_error (orig : Request)
    (handler : Request → Except ExecutionError Response)
    (fuel : Nat) (doc : Doc) (cap : Option Nat) (st : EState) (e : ExecutionError)
    (h : execute_esi_fragment orig handler fuel doc ⟨⟨[], cap⟩, []⟩ = (st, .err e)) :
    (∀ w, st.writer.write errorNotice = .ok w →
      execute_esi orig handler fuel doc cap = ({ st with writer := w }, .err e)) ∧
    (∀ we, st.writer.write errorNotice = .error we →
      execute_esi orig handler fuel doc cap = (st, .err we)) := by
  constructor
  · intro w hw
    simp only [execute_esi, h, hw]
  · intro we hw
    simp only [execute_esi, h, hw]

theorem C4_notice_on_error_witness :
    (execute_esi_fragment clientReq downHandler 1
        ⟨[.esiInclude "s://h/f" none false], none⟩ ⟨⟨[], some 0⟩, []⟩ =
      (⟨⟨[], some 0⟩,
          [⟨"s://h/f", [("accept", "text/html"), ("host", "h")], false, true⟩]⟩,
        .err (.RequestError "connection refused"))) ∧
    (∀ w, (Sink.write ⟨[], some 0⟩ errorNotice) = .ok w →
      execute_esi clientReq downHandler 1 ⟨[.esiInclude "s://h/f" none false], none⟩ (some 0) =
        ({ writer := w,
           trace := [⟨"s://h/f", [("accept", "text/html"), ("host", "h")], false, true⟩] },
          .err (.RequestError "connection refused"))) ∧
    (∀ we, (Sink.write ⟨[], some 0⟩ errorNotice) = .error we →
      execute_esi clientReq downHandler 1 ⟨[.esiInclude "s://h/f" none false], none⟩ (some 0) =
        (⟨⟨[], some 0⟩,
            [⟨"s://h/f", [("accept", "text/html"), ("host", "h")], false, true⟩]⟩,
          .err we)) :=
  ⟨by decide,
    (C4_notice_on_error clientReq downHandler 1 ⟨[.esiInclude "s://h/f" none false], none⟩
      (some 0)
      ⟨⟨[], some 0⟩, [⟨"s://h/f", [("accept", "text/html"), ("host", "h")], false, true⟩]⟩
      (.RequestError "connection refused") (by decide)).1,
    (C4_notice_on_error clientReq downHandler 1 ⟨[.esiInclude "s://h/f" none false], none⟩
      (some 0)
      ⟨⟨[], some 0⟩, [⟨"s://h/f", [("accept", "text/html"), ("host", "h")], false, true⟩]⟩
      (.RequestError "connection refused") (by decide)).2⟩

/-- One fuel level of the refinement: if the per-fragment relation holds
between the spec-level `flattenFrag` and the engine-level `execFrag`, then
a stream whose spec-level flattening is defined executes successfully and
writes exactly the flattened bytes (document order, fragments spliced in
place) after the sink's existing content. -/
theorem execList_refines_flattenList (handler : Request → Except ExecutionError Response)
    (flattenFrag : Request → List Event → Option (List Nat))
    (execFrag : Request → Doc → EState → Option (EState × Outcome))
    (hfrag : ∀ (orig : Request) (doc : Doc) (st : EState) (out : List Nat),
      doc.parseError = none → flattenFrag orig doc.events = some out →
      st.writer.cap = none →
      ∃ tr, execFrag orig doc st = some (⟨⟨st.writer.buf ++ out, none⟩, tr⟩, .ok)) :
    ∀ (evs : List Event) (orig : Request) (st : EState) (out : List Nat),
      flattenList handler flattenFrag orig evs = some out → st.writer.cap = none →
      ∃ tr, execList handler execFrag orig evs none st =
        (⟨⟨st.writer.buf ++ out, none⟩, tr⟩, .ok) := by
  intro evs
  induction evs with
  | nil =>
    intro orig st out hf hcap
    obtain ⟨⟨buf, cap⟩, tr₀⟩ := st
    subst hcap
    simp only [flattenList, Option.some.injEq] at hf
    subst hf
    exact ⟨tr₀, by simp [execList]⟩
  | cons ev rest ih =>
    intro orig st out hf hcap
    obtain ⟨⟨buf, cap⟩, tr₀⟩ := st
    subst hcap
    cases ev with
    | xml bytes =>
      simp only [flattenList] at hf
      rcases hrest : flattenList handler flattenFrag orig rest with _ | out'
      · rw [hrest] at hf
        simp at hf
      · rw [hrest] at hf
        simp only [Option.map_some', Option.some.injEq] at hf
        subst hf
        obtain ⟨tr, hrun⟩ := ih orig ⟨⟨buf ++ bytes, none⟩, tr₀⟩ out' hrest rfl
        refine ⟨tr, ?_⟩
        have hw : Sink.write ⟨buf, none⟩ bytes = .ok ⟨buf ++ bytes, none⟩ := rfl
        simp only [execList, hw]
        rw [hrun]
        simp [List.append_assoc]
    | esiInclude src alt coe =>
      simp only [flattenList] at hf
      rcases hps : send_esi_fragment_request orig src handler with ⟨r₁, f₁⟩
      rw [hps] at hf
      rcases f₁ with m | e₁ | resp
      · simp at hf
      · simp at hf
      · simp only at hf
        rcases hpe : resp.body.parseError with _ | pe
        · rw [hpe] at hf
          simp only at hf
          rcases hff : flattenFrag orig.clone_without_body resp.body.events with _ | fragOut
          · rw [hff] at hf
            simp at hf
          · rw [hff] at hf
            simp only at hf
            rcases hrest : flattenList handler flattenFrag orig rest with _ | restOut
            · rw [hrest] at hf
              simp at hf
            · rw [hrest] at hf
              simp only [Option.map_some', Option.some.injEq] at hf
              subst hf
              have hfetch : fetch_include orig src alt coe handler
                  = (r₁.toList, .content resp) := by
                simp only [fetch_include, hps]
              obtain ⟨tr', hrunFrag⟩ := hfrag orig.clone_without_body resp.body
                (EState.addTrace ⟨⟨buf, none⟩, tr₀⟩ r₁.toList) fragOut hpe hff rfl
              obtain ⟨tr'', hrunRest⟩ := ih orig ⟨⟨buf ++ fragOut, none⟩, tr'⟩ restOut hrest rfl
              refine ⟨tr'', ?_⟩
              simp only [execList, hfetch, hrunFrag]
              simp [EState.addTrace, List.append_assoc, hrunRest]
        · rw [hpe] at hf
          simp at hf

/-- C1: for every `Include` directive whose fetch returns a successful
(2xx) response, the engine recursively executes the fragment's body into
the same output sink before any later event of the parent stream, resolving
nested directives to the depth the fuel covers: whenever the spec-level
flattening (`flattenEvents` — document order with each fragment's rendered
body spliced at its directive's position) is defined and yields `out`, the
engine succeeds and appends exactly `out` to a never-failing sink. -/
theorem C1_document_order_splicing (handler : Request → Except ExecutionError Response) :
    ∀ (fuel : Nat) (orig : Request) (evs : List Event) (st : EState) (out : List Nat),
      flattenEvents handler fuel orig evs = some out → st.writer.cap = none →
      ∃ tr, execEvents handler fuel orig evs none st =
        (⟨⟨st.writer.buf ++ out, none⟩, tr⟩, .ok) := by
  intro fuel
  induction fuel with
  | zero =>
    intro orig evs st out hf hcap
    exact execList_refines_flattenList handler _ _
      (fun orig doc st out hpe hff hcap => by simp at hff) evs orig st out hf hcap
  | succ fuel ih =>
    intro orig evs st out hf hcap
    refine execList_refines_flattenList handler _ _ ?_ evs orig st out hf hcap
    intro orig doc st out hpe hff hcap
    obtain ⟨tr, hrun⟩ := ih orig doc.events st out hff hcap
    exact ⟨tr, by simp only [hpe, hrun]⟩

theorem C1_document_order_splicing_witness :
    flattenEvents nestedHandler 2 clientReq
        [.xml [1], .esiInclude "s://h/a" none false, .xml [2]] = some [1, 10, 11, 2] ∧
      ∃ tr, execEvents nestedHandler 2 clientReq
          [.xml [1], .esiInclude "s://h/a" none false, .xml [2]] none ⟨⟨[], none⟩, []⟩ =
        (⟨⟨[1, 10, 11, 2], none⟩, tr⟩, .ok) :=
  ⟨by decide,
    C1_document_order_splicing nestedHandler 2 clientReq
      [.xml [1], .esiInclude "s://h/a" none false, .xml [2]] ⟨⟨[], none⟩, []⟩
      [1, 10, 11, 2] (by decide) rfl⟩

theorem parse_tags_append_xml (pre tail : List RawEvent) (h : pre.all isRawXml = true) :
    parse_tags (pre ++ tail) =
      ⟨toXmlEvents pre ++ (parse_tags tail).events, (parse_tags tail).parseError⟩ := by
  induction pre with
  | nil => rfl
  | cons r pre ih =>
    cases r with
    | xml bytes =>
      simp only [List.all_cons, Bool.and_eq_true] at h
      simp [parse_tags, toXmlEvents, ih h.2]
    | esiIncludeTag attrs => simp [isRawXml] at h

theorem parse_tags_error_cons (attrs : List (String × String)) (tail : List RawEvent)
    (e : ExecutionError) (he : makeInclude attrs = .error e) :
    parse_tags (.esiIncludeTag attrs :: tail) = ⟨[], some e⟩ := by
  simp [parse_tags, he]

theorem noDirectives_toXmlEvents (pre : List RawEvent) :
    noDirectives (toXmlEvents pre) = true := by
  induction pre with
  | nil => rfl
  | cons r pre ih => cases r <;> simpa [toXmlEvents, noDirectives] using ih

/-- C8 (parser modelled from the spec — `parse.rs` is not among the
sources): a directive occurrence with a duplicate attribute name raises
`DuplicateTagAttribute` with that name, and one with a missing or empty
required `src` raises `MissingRequiredParameter`; in both cases the error
surfaces from parsing, before any fragment fetch is attempted for that
directive — executing a stream whose directive is invalid (after a
directive-free prefix) issues no request at all (the trace is unchanged)
and ends with that error. -/
theorem C8_validation_before_fetch :
    (∀ (attrs : List (String × String)) (n : String),
      firstDupAttr attrs [] = some n →
        makeInclude attrs = .error (.DuplicateTagAttribute n)) ∧
    (∀ attrs : List (String × String),
      firstDupAttr attrs [] = none →
      lookupAttr attrs "src" = none ∨ lookupAttr attrs "src" = some "" →
        makeInclude attrs = .error (.MissingRequiredParameter "include" "src")) ∧
    (∀ (orig : Request) (handler : Request → Except ExecutionError Response) (fuel : Nat)
        (pre : List RawEvent) (attrs : List (String × String)) (tail : List RawEvent)
        (st : EState) (e : ExecutionError),
      pre.all isRawXml = true → makeInclude attrs = .error e → st.writer.cap = none →
      execute_esi_fragment orig handler fuel
          (parse_tags (pre ++ .esiIncludeTag attrs :: tail)) st =
        (⟨⟨st.writer.buf ++ streamBytes (toXmlEvents pre), none⟩, st.trace⟩, .err e)) := by
  refine ⟨?_, ?_, ?_⟩
  · intro attrs n h
    simp [makeInclude, h]
  · intro attrs h hsrc
    rcases hsrc with h1 | h1 <;> simp [makeInclude, h, h1]
  · intro orig handler fuel pre attrs tail st e hpre he hcap
    simp only [parse_tags_append_xml pre _ hpre, parse_tags_error_cons attrs tail e he,
      List.append_nil]
    unfold execute_esi_fragment
    rw [execEvents_noDirectives handler fuel orig (toXmlEvents pre) (some e) st
      (noDirectives_toXmlEvents pre) hcap]

theorem C8_validation_before_fetch_witness :
    (firstDupAttr [("src", "s://h/a"), ("src", "s://h/b")] [] = some "src" ∧
      makeInclude [("src", "s://h/a"), ("src", "s://h/b")]
        = .error (.DuplicateTagAttribute "src")) ∧
    (firstDupAttr [("alt", "s://h/g")] [] = none ∧
      makeInclude [("alt", "s://h/g")]
        = .error (.MissingRequiredParameter "include" "src")) ∧
    execute_esi_fragment clientReq downHandler 1
        (parse_tags
          [.xml [1], .esiIncludeTag [("src", "s://h/a"), ("src", "s://h/b")], .xml [2]])
        ⟨⟨[], none⟩, []⟩ =
      (⟨⟨[1], none⟩, []⟩, .err (.DuplicateTagAttribute "src")) :=
  ⟨⟨by decide,
      C8_validation_before_fetch.1 [("src", "s://h/a"), ("src", "s://h/b")] "src" (by decide)⟩,
    ⟨by decide,
      C8_validation_before_fetch.2.1 [("alt", "s://h/g")] (by decide) (.inl (by decide))⟩,
    C8_validation_before_fetch.2.2 clientReq downHandler 1 [.xml [1]]
      [("src", "s://h/a"), ("src", "s://h/b")] [.xml [2]] ⟨⟨[], none⟩, []⟩
      (.DuplicateTagAttribute "src") (by decide) rfl rfl⟩
